import Mathlib

/-!
Shallow embedding of the fact-checking pipeline in `src/pathway_pipeline.py`
of the truthscope repository, together with theorems settling the claims
about it.  External effects (feed fetching, the two search APIs, the
language-model call) are modelled by an explicit environment `Env` recording
each call's outcome; the mutable global feed cache `trusted_items` is
modelled by explicit state passing.
-/

namespace TruthScope

/-! ## Data model -/

/-- A cached trusted-feed item, as built in `fetch_rss_once`. -/
structure FeedItem where
  source : String
  headline : String
  link : String
  timestamp : String
deriving DecidableEq, Repr

/-- One entry of a parsed syndication feed (`entry.title`, `entry.link`,
`entry.get("published", ...)`). -/
structure FeedEntry where
  title : String
  link : String
  published : Option String
deriving DecidableEq, Repr

/-- One article object of a search-API JSON reply; the title and url
fields may be absent (Python `None`, read via dict get). -/
structure Article where
  title : Option String
  url : Option String
deriving DecidableEq, Repr

/-- The result dictionary returned by `check_news`. -/
structure FactCheckResult where
  verdict : String
  evidence : List String
  explanation : String
deriving DecidableEq, Repr

/-- Outcome of the OpenAI call chain in `check_news` when a client is
configured: either some call in the chain succeeded with stripped reply
text, or every attempt raised and the text of the last exception remains. -/
inductive LMOutcome where
  | reply (text : String)
  | error (msg : String)
deriving DecidableEq, Repr

/-- Environment of one `check_news` request: the parse result of every
configured feed URL (`none` models a fetch/parse failure or an absent or
empty `entries` attribute), the current-time string, whether each API key
is configured, each search API call's outcome (`Except.error` models a
raised transport/parse exception with its message), and the OpenAI
client's state and outcome. -/
structure Env where
  feeds : List (String × Option (List FeedEntry))
  now : String
  newsApiKey : Bool
  newsApiResult : Except String (List Article)
  gnewsApiKey : Bool
  gnewsResult : Except String (List Article)
  clientConfigured : Bool
  lmOutcome : LMOutcome

/-! ## Normalizer -/

/-- ASCII lowercasing of a single character, modelling Python `str.lower`
on the ASCII range (the only range the pipeline's keyword matching and
normalization exercise). -/
def lowerChar (c : Char) : Char :=
  if 65 ≤ c.toNat ∧ c.toNat ≤ 90 then Char.ofNat (c.toNat + 32) else c

/-- Characters kept by `normalize`'s regex `[^a-z0-9 ]+` deletion:
lowercase ASCII letters, digits, and the space. -/
def keepChar (c : Char) : Bool :=
  decide (97 ≤ c.toNat ∧ c.toNat ≤ 122) ||
  decide (48 ≤ c.toNat ∧ c.toNat ≤ 57) ||
  decide (c.toNat = 32)

/-- Embedding of `normalize` (src/pathway_pipeline.py lines 69-71):
`re.sub(r"[^a-z0-9 ]+", "", (text or "").lower())`.  The argument is an
`Option` so that a Python `None` input is representable. -/
def normalize (text : Option String) : String :=
  ⟨((text.getD ("")).data.map lowerChar).filter keepChar⟩

/-- ASCII lowercasing of a whole string (Python `str.lower`). -/
def lowerStr (s : String) : String := ⟨s.data.map lowerChar⟩

/-! ## Fuzzy matching (`rapidfuzz.fuzz.token_set_ratio`) -/

/-- Lexicographic strict order on character lists (Python string `<`,
used by `sorted`). -/
def strLtCL : List Char → List Char → Bool
  | [], [] => false
  | [], _ :: _ => true
  | _ :: _, [] => false
  | a :: as, b :: bs =>
    if a.toNat < b.toNat then true
    else if b.toNat < a.toNat then false
    else strLtCL as bs

/-- Insert a token into a sorted duplicate-free token list, keeping it
sorted and duplicate-free (models Python `sorted(set(...))`). -/
def insUnique (x : List Char) : List (List Char) → List (List Char)
  | [] => [x]
  | y :: ys =>
    if x = y then y :: ys
    else if strLtCL y x then y :: insUnique x ys
    else x :: y :: ys

def isWsChar (c : Char) : Bool :=
  decide (c.toNat = 32) || decide (c.toNat = 9) ||
  decide (c.toNat = 10) || decide (c.toNat = 13)

/-- Split a character list on whitespace runs, dropping empty tokens
(models Python `str.split()` on the strings fed to the matcher). -/
def splitWsAux : List Char → List Char → List (List Char)
  | [], cur => if cur.isEmpty then [] else [cur.reverse]
  | c :: cs, cur =>
    if isWsChar c then
      if cur.isEmpty then splitWsAux cs [] else cur.reverse :: splitWsAux cs []
    else splitWsAux cs (c :: cur)

def splitWs (l : List Char) : List (List Char) := splitWsAux l []

/-- Sorted duplicate-free token set of a word list. -/
def sortTokens (l : List (List Char)) : List (List Char) :=
  l.foldl (fun acc t => insUnique t acc) []

/-- One dynamic-programming row step of the longest-common-subsequence
table: `diag`, `up` walk the previous row, `left` is the cell just
written in the current row. -/
def lcsRowAux (a : Char) : List Char → List Nat → Nat → List Nat
  | c :: cs, diag :: up :: rest, left =>
    let nj := if a = c then diag + 1 else max left up
    nj :: lcsRowAux a cs (up :: rest) nj
  | _, _, _ => []

/-- Length of the longest common subsequence of two character lists,
computed row by row. -/
def lcsLen (s t : List Char) : Nat :=
  (s.foldl (fun row a => 0 :: lcsRowAux a t row 0)
    (List.replicate (t.length + 1) 0)).getLastD 0

/-- Normalised Indel similarity on a 0-100 scale as an exact rational:
`100 * (1 - dist / lenSum)` (rapidfuzz `fuzz.ratio` applied to strings
with Indel distance `dist` and total length `lenSum`). -/
def ratioQ (dist lenSum : Nat) : ℚ := 100 * (1 - (dist : ℚ) / (lenSum : ℚ))

/-- Embedding of rapidfuzz `fuzz.token_set_ratio`, the fuzzy matcher used
by `check_news`: split both strings into unique sorted token sets, return
100 when one token set contains the other (and they intersect), otherwise
the maximum of the pairwise Indel ratios between the joined intersection
and the two joined intersection-plus-difference strings.  The two ratios
against the pure intersection depend only on string lengths because the
intersection is a prefix of both combined strings. -/
def token_set_ratio (s1 s2 : String) : ℚ :=
  let ta := sortTokens (splitWs s1.data)
  let tb := sortTokens (splitWs s2.data)
  if ta.isEmpty || tb.isEmpty then 0
  else
    let sect := ta.filter (fun t => tb.contains t)
    let dAB := ta.filter (fun t => !(tb.contains t))
    let dBA := tb.filter (fun t => !(ta.contains t))
    if !sect.isEmpty && (dAB.isEmpty || dBA.isEmpty) then 100
    else
      let abJ := List.intercalate ([' ']) dAB
      let baJ := List.intercalate ([' ']) dBA
      let sectLen := (List.intercalate ([' ']) sect).length
      let sb := if sectLen = 0 then 0 else 1
      let sectABLen := sectLen + sb + abJ.length
      let sectBALen := sectLen + sb + baJ.length
      let dist := abJ.length + baJ.length - 2 * lcsLen abJ baJ
      let r0 := ratioQ dist (sectABLen + sectBALen)
      if sectLen = 0 then r0
      else max r0 (max (ratioQ (sb + abJ.length) (sectLen + sectABLen))
                       (ratioQ (sb + baJ.length) (sectLen + sectBALen)))

/-! ## Feed Cache -/

/-- Build a `FeedItem` from a feed entry, as in the loop body of
`fetch_rss_once` (falling back to `now` when `published` is absent). -/
def mkFeedItem (url : String) (e : FeedEntry) (now : String) : FeedItem :=
  { source := url, headline := e.title, link := e.link,
    timestamp := e.published.getD now }

/-- One entry step of `fetch_rss_once`: append the item to the cache and
to the new-item list unless some already-cached item has the identical
headline string. -/
def fetchStep (now : String) (acc : List FeedItem × List FeedItem)
    (url : String) (e : FeedEntry) : List FeedItem × List FeedItem :=
  let item := mkFeedItem url e now
  if acc.1.any (fun i => i.headline == item.headline) then acc
  else (acc.1 ++ [item], acc.2 ++ [item])

/-- One feed-URL step of `fetch_rss_once`: a feed whose parse result has no
usable `entries` (fetch/parse failure, missing or empty attribute) is
skipped, otherwise every entry is folded through `fetchStep`. -/
def fetchFeed (now : String) (acc : List FeedItem × List FeedItem)
    (f : String × Option (List FeedEntry)) : List FeedItem × List FeedItem :=
  match f.2 with
  | none => acc
  | some entries => entries.foldl (fun a e => fetchStep now a f.1 e) acc

/-- Embedding of `fetch_rss_once` (src/pathway_pipeline.py lines 73-90):
walk the configured feed URLs, skip a feed whose parse result has no
usable `entries`, and append each unseen entry.  Returns the updated
cache together with the `new` list the Python function returns. -/
def fetch_rss_once (feeds : List (String × Option (List FeedEntry)))
    (now : String) (cache : List FeedItem) : List FeedItem × List FeedItem :=
  feeds.foldl (fetchFeed now) (cache, [])

/-- Embedding of `stream_trusted_news` (src/pathway_pipeline.py lines
92-95): refresh the cache and return its last 15 items
(`trusted_items[-15:]`); the second component is the updated cache. -/
def stream_trusted_news (env : Env) (cache : List FeedItem) :
    List FeedItem × List FeedItem :=
  let c := (fetch_rss_once env.feeds env.now cache).1
  (c.drop (c.length - 15), c)

/-! ## Evidence Collector -/

/-- Python f-string rendering of an optional string: an absent value
(Python `None`) prints as the four-letter string None. -/
def formatPyOpt (o : Option String) : String :=
  match o with
  | none => ("None")
  | some s => s

/-- The fuzzy-matched cache items and their evidence strings
(src/pathway_pipeline.py lines 108-113): an item qualifies when the
token-set ratio of the normalized headlines is strictly greater than 60,
and is formatted as `"<headline> (<link>)"` from the original fields. -/
def rssSegment (cache : List FeedItem) (headline : String) : List String :=
  (cache.filter (fun item =>
      decide (60 < token_set_ratio (normalize (some headline))
        (normalize (some item.headline))))).map
    (fun m => m.headline ++ (" (") ++ m.link ++ (")"))

/-- The NewsAPI evidence segment (src/pathway_pipeline.py lines 116-132):
nothing when no key is configured; the formatted articles on success; a
single diagnostic string on a raised transport/parse error. -/
def newsSegment (env : Env) : List String :=
  if env.newsApiKey then
    match env.newsApiResult with
    | .ok arts =>
        arts.map (fun a => formatPyOpt a.title ++ (" (") ++ formatPyOpt a.url ++ (")"))
    | .error e => [("⚠ NewsAPI error: ") ++ e]
  else []

/-- The GNews evidence segment (src/pathway_pipeline.py lines 135-151),
same shape as the NewsAPI one. -/
def gnewsSegment (env : Env) : List String :=
  if env.gnewsApiKey then
    match env.gnewsResult with
    | .ok arts =>
        arts.map (fun a => formatPyOpt a.title ++ (" (") ++ formatPyOpt a.url ++ (")"))
    | .error e => [("⚠ GNews API error: ") ++ e]
  else []

/-- The full evidence list built by `check_news` before the placeholder
substitution: fuzzy feed matches, then NewsAPI results, then GNews
results, in appending order. -/
def collectEvidence (env : Env) (cache : List FeedItem) (headline : String) :
    List String :=
  rssSegment cache headline ++ newsSegment env ++ gnewsSegment env

/-! ## Verdict Summarizer -/

/-- The fixed explanation used when no OpenAI client is available
(src/pathway_pipeline.py line 159). -/
def notConfiguredMsg : String :=
  "⚠ OpenAI client not available or OPENAI_API_KEY not set."

/-- The explanation text `verdict_text` produced by Step 2 of
`check_news`: the fixed not-configured message when no client exists,
otherwise the (stripped) model reply, or `"⚠ OpenAI error: <e>"` when
every call attempt raised. -/
def verdictText (env : Env) : String :=
  if env.clientConfigured then
    match env.lmOutcome with
    | .reply t => t
    | .error e => ("⚠ OpenAI error: ") ++ e
  else notConfiguredMsg

def fake_tokens : List String :=
  ["fake", "false", "not true", "misleading", "fabricated", "no evidence",
   "unverified", "incorrect"]

def real_tokens : List String :=
  ["real", "true", "verified", "confirmed", "accurate", "substantiated",
   "supported", "yes"]

/-- Boolean list-prefix test on characters. -/
def isPrefixCL : List Char → List Char → Bool
  | [], _ => true
  | _ :: _, [] => false
  | a :: as, b :: bs => a == b && isPrefixCL as bs

/-- Boolean substring test on characters (Python `needle in hay`). -/
def isSubstrCL (needle : List Char) : List Char → Bool
  | [] => needle.isEmpty
  | c :: cs => isPrefixCL needle (c :: cs) || isSubstrCL needle cs

/-- Python `tok in vt` substring containment on strings. -/
def containsTok (hay needle : String) : Bool := isSubstrCL needle.data hay.data

/-- The keyword heuristic of `check_news` (src/pathway_pipeline.py lines
220-228): lowercase the explanation, label it `"Potential Fake ❌"` when
any fake-leaning token occurs, else `"Verified Real ✅"` when any
real-leaning token occurs, else keep the default `"Unverified ❓"`. -/
def deriveLabel (verdict_text : String) : String :=
  let vt := lowerStr verdict_text
  if fake_tokens.any (fun tok => containsTok vt tok) then ("Potential Fake ❌")
  else if real_tokens.any (fun tok => containsTok vt tok) then ("Verified Real ✅")
  else ("Unverified ❓")

/-- Embedding of `check_news` (src/pathway_pipeline.py lines 100-234):
refresh the feed cache, collect evidence, derive the explanation text and
label, and return the result dictionary (with the empty evidence list
replaced by the placeholder, Python `evidence or [...]`) together with
the updated cache.  The function is total: no failure path escapes to the
caller. -/
def check_news (env : Env) (cache₀ : List FeedItem) (headline : String) :
    FactCheckResult × List FeedItem :=
  let cache := (fetch_rss_once env.feeds env.now cache₀).1
  let evidence := collectEvidence env cache headline
  let vt := verdictText env
  ({ verdict := deriveLabel vt,
     evidence := if evidence.isEmpty then [("No direct evidence found.")] else evidence,
     explanation := vt }, cache)

/-! ## Concrete environments used by witnesses and counterexamples -/

/-- A request environment with no feeds, no search-API keys and no OpenAI
client configured. -/
def envPlain : Env :=
  { feeds := [], now := ("t"), newsApiKey := false, newsApiResult := .ok [],
    gnewsApiKey := false, gnewsResult := .ok [], clientConfigured := false,
    lmOutcome := .reply ("") }

/-! ## Helper lemmas -/

/-- Unfolding of the evidence field of a `check_news` result. -/
lemma check_news_evidence_eq (env : Env) (cache : List FeedItem) (h : String) :
    (check_news env cache h).1.evidence =
      if (collectEvidence env (fetch_rss_once env.feeds env.now cache).1 h).isEmpty
      then [("No direct evidence found.")]
      else collectEvidence env (fetch_rss_once env.feeds env.now cache).1 h := rfl

/-- A character kept by `normalize` is already lowercase, so ASCII
lowercasing fixes it. -/
lemma keep_lowerChar_fix {c : Char} (h : keepChar c = true) : lowerChar c = c := by
  simp only [keepChar, Bool.or_eq_true, decide_eq_true_eq] at h
  unfold lowerChar
  rw [if_neg (by omega)]

lemma map_lowerChar_fix {l : List Char} (h : ∀ c ∈ l, lowerChar c = c) :
    l.map lowerChar = l := by
  induction l with
  | nil => rfl
  | cons a as ih => simp_all

/-- The label heuristic `deriveLabel` can only produce the three verdict
labels. -/
lemma deriveLabel_mem (t : String) :
    deriveLabel t = ("Potential Fake ❌") ∨ deriveLabel t = ("Verified Real ✅") ∨
    deriveLabel t = ("Unverified ❓") := by
  simp only [deriveLabel]
  split
  · exact Or.inl rfl
  · split
    · exact Or.inr (Or.inl rfl)
    · exact Or.inr (Or.inr rfl)

/-- The evidence list returned by `check_news` is never empty. -/
lemma check_news_evidence_ne_nil (env : Env) (cache : List FeedItem) (h : String) :
    (check_news env cache h).1.evidence ≠ [] := by
  rw [check_news_evidence_eq]
  by_cases hce :
      (collectEvidence env (fetch_rss_once env.feeds env.now cache).1 h).isEmpty
  · simp [hce]
  · simp only [Bool.not_eq_true] at hce
    simp only [hce, Bool.false_eq_true, if_false, ne_eq]
    intro hnil
    rw [hnil] at hce
    simp at hce

/-! ## C8 -/

/-- C8: for every input (a Python string or `None`), `normalize` returns a
string containing only lowercase ASCII letters, digits, and spaces;
`normalize` is idempotent; and `normalize` of `None` or of the empty
string is the empty string. -/
theorem normalize_charset_idempotent_empty :
    (∀ t : Option String, ((normalize t).data.all keepChar) = true) ∧
    (∀ t : Option String, normalize (some (normalize t)) = normalize t) ∧
    normalize none = ("") ∧ normalize (some ("")) = ("") := by
  have hall : ∀ t : Option String, ∀ c ∈ (normalize t).data, keepChar c = true := by
    intro t c hc
    have hc' : c ∈ List.filter keepChar (((t.getD ("")).data.map lowerChar)) := hc
    exact (List.mem_filter.mp hc').2
  refine ⟨?_, ?_, rfl, rfl⟩
  · intro t
    rw [List.all_eq_true]
    exact hall t
  · intro t
    calc normalize (some (normalize t))
        = ⟨((normalize t).data.map lowerChar).filter keepChar⟩ := rfl
      _ = ⟨(normalize t).data.filter keepChar⟩ := by
          rw [map_lowerChar_fix (fun c hc => keep_lowerChar_fix (hall t c hc))]
      _ = ⟨(normalize t).data⟩ := by rw [List.filter_eq_self.mpr (hall t)]
      _ = normalize t := rfl

/-! ## C2 -/

/-- C2 (counterexample): with no OpenAI client configured, the verdict
returned by `check_news` is `"Unverified ❓"`, which is none of the three
bare labels `"Potential Fake"`, `"Verified Real"`, `"Unverified"` the
claim allows. -/
theorem check_news_verdict_bare_labels_counterexample :
    (check_news envPlain [] ("Economy grew")).1.verdict = ("Unverified ❓") ∧
    ¬ ((check_news envPlain [] ("Economy grew")).1.verdict = ("Potential Fake") ∨
       (check_news envPlain [] ("Economy grew")).1.verdict = ("Verified Real") ∨
       (check_news envPlain [] ("Economy grew")).1.verdict = ("Unverified")) := by
  decide

/-- C2 (amended): for every environment, cache and headline, the verdict
field returned by `check_news` is one of exactly the three labels
`"Potential Fake ❌"`, `"Verified Real ✅"`, `"Unverified ❓"` (each
carrying its emoji suffix); no other value is ever returned. -/
theorem check_news_verdict_three_labels (env : Env) (cache : List FeedItem)
    (h : String) :
    (check_news env cache h).1.verdict = ("Potential Fake ❌") ∨
    (check_news env cache h).1.verdict = ("Verified Real ✅") ∨
    (check_news env cache h).1.verdict = ("Unverified ❓") :=
  deriveLabel_mem (verdictText env)

/-! ## C4 -/

/-- C4 (counterexample): the explanation `"This claim is false and
misleading."` is labeled `"Potential Fake ❌"`, not the bare string
`"Potential Fake"` the claim names. -/
theorem deriveLabel_bare_fake_counterexample :
    deriveLabel ("This claim is false and misleading.") ≠ ("Potential Fake") ∧
    deriveLabel ("This claim is false and misleading.") = ("Potential Fake ❌") := by
  decide

/-- C4 (amended): the fake-token check is evaluated first, so every
explanation containing (case-insensitively) a fake-leaning token is
labeled `"Potential Fake ❌"` regardless of any real-leaning token; in
particular any string containing both `"false"` and `"verified"`, and the
explanation `"This claim is false and misleading."`, get that label. -/
theorem deriveLabel_fake_token_priority :
    (∀ t : String, (∃ f ∈ fake_tokens, containsTok (lowerStr t) f = true) →
        (∃ r ∈ real_tokens, containsTok (lowerStr t) r = true) →
        deriveLabel t = ("Potential Fake ❌")) ∧
    (∀ t : String, containsTok (lowerStr t) ("false") = true →
        containsTok (lowerStr t) ("verified") = true →
        deriveLabel t = ("Potential Fake ❌")) ∧
    deriveLabel ("This claim is false and misleading.") = ("Potential Fake ❌") := by
  have hgen : ∀ t : String, (∃ f ∈ fake_tokens, containsTok (lowerStr t) f = true) →
      deriveLabel t = ("Potential Fake ❌") := by
    intro t ⟨f, hmem, hsub⟩
    unfold deriveLabel
    rw [if_pos (List.any_eq_true.mpr ⟨f, hmem, hsub⟩)]
  refine ⟨fun t hf _ => hgen t hf, fun t hf _ => hgen t ⟨("false"), by decide, hf⟩, ?_⟩
  decide

/-- C4 (witness): a concrete explanation holding both a fake-leaning and a
real-leaning token resolves to `"Potential Fake ❌"`. -/
theorem deriveLabel_fake_token_priority_witness :
    deriveLabel ("It is false but verified") = ("Potential Fake ❌") :=
  deriveLabel_fake_token_priority.2.1 ("It is false but verified") (by decide) (by decide)

/-! ## C5 -/

/-- C5: the evidence list returned by `check_news` is never empty: when the
collected evidence is empty it is exactly the single placeholder string
`"No direct evidence found."`, and otherwise the collected evidence is
returned unchanged, so the substitution happens only at the return
boundary, after all collection. -/
theorem check_news_evidence_never_empty (env : Env) (cache : List FeedItem)
    (h : String) :
    (check_news env cache h).1.evidence ≠ [] ∧
    (collectEvidence env (fetch_rss_once env.feeds env.now cache).1 h = [] →
      (check_news env cache h).1.evidence = [("No direct evidence found.")]) ∧
    (collectEvidence env (fetch_rss_once env.feeds env.now cache).1 h ≠ [] →
      (check_news env cache h).1.evidence =
        collectEvidence env (fetch_rss_once env.feeds env.now cache).1 h) := by
  refine ⟨check_news_evidence_ne_nil env cache h, ?_, ?_⟩
  · intro hce
    rw [check_news_evidence_eq, hce]
    rfl
  · intro hce
    rw [check_news_evidence_eq]
    rw [if_neg]
    simp [hce]

/-- C5 (witness): with nothing configured and nothing cached, the returned
evidence is exactly the placeholder. -/
theorem check_news_evidence_never_empty_witness :
    (check_news envPlain [] ("Economy grew")).1.evidence =
      [("No direct evidence found.")] :=
  (check_news_evidence_never_empty envPlain [] ("Economy grew")).2.1 rfl

/-! ## C9 -/

/-- C9 (counterexample): with no credentials configured and an empty cache,
`check_news` returns the verdict `"Unverified ❓"`, not the bare string
`"Unverified"` the claim names. -/
theorem check_news_unconfigured_counterexample :
    (check_news envPlain [] ("x")).1.verdict = ("Unverified ❓") ∧
    (check_news envPlain [] ("x")).1.verdict ≠ ("Unverified") := by
  decide

/-- C9 (amended): when no search API key and no language-model client is
configured and the feed cache is still empty after the refresh,
`check_news` returns the placeholder evidence list, the fixed
not-configured explanation, and the verdict `"Unverified ❓"`; no
fake-leaning or real-leaning keyword token occurs in that fixed message. -/
theorem check_news_unconfigured_defaults (env : Env) (h : String)
    (hn : env.newsApiKey = false) (hg : env.gnewsApiKey = false)
    (hc : env.clientConfigured = false)
    (hf : (fetch_rss_once env.feeds env.now []).1 = []) :
    (check_news env [] h).1.evidence = [("No direct evidence found.")] ∧
    (check_news env [] h).1.explanation = notConfiguredMsg ∧
    (check_news env [] h).1.verdict = ("Unverified ❓") ∧
    fake_tokens.any (fun tok => containsTok (lowerStr notConfiguredMsg) tok) = false ∧
    real_tokens.any (fun tok => containsTok (lowerStr notConfiguredMsg) tok) = false := by
  have hce : collectEvidence env (fetch_rss_once env.feeds env.now []).1 h = [] := by
    rw [hf]
    simp [collectEvidence, rssSegment, newsSegment, gnewsSegment, hn, hg]
  have hvt : verdictText env = notConfiguredMsg := by
    unfold verdictText
    rw [if_neg]
    simp [hc]
  refine ⟨?_, ?_, ?_, by decide, by decide⟩
  · rw [check_news_evidence_eq, hce]
    rfl
  · show verdictText env = notConfiguredMsg
    exact hvt
  · show deriveLabel (verdictText env) = ("Unverified ❓")
    rw [hvt]
    decide

/-- C9 (witness): the no-credentials scenario at a concrete environment. -/
theorem check_news_unconfigured_defaults_witness :
    (check_news envPlain [] ("Moon made of cheese")).1.evidence =
        [("No direct evidence found.")] ∧
    (check_news envPlain [] ("Moon made of cheese")).1.explanation = notConfiguredMsg ∧
    (check_news envPlain [] ("Moon made of cheese")).1.verdict = ("Unverified ❓") :=
  have h := check_news_unconfigured_defaults envPlain ("Moon made of cheese")
    rfl rfl rfl rfl
  ⟨h.1, h.2.1, h.2.2.1⟩

/-! ## C1 -/

/-- C1: `check_news` is a total function of the request environment — every
failure mode is a value of `Env`, none escapes to the caller — and always
returns a well-formed result: the verdict is one of the three labels, the
evidence list is non-empty, and the explanation is the summarizer text;
moreover a feed URL whose fetch/parse fails contributes nothing and the
refresh behaves exactly as if that URL were absent, so the other URLs are
still processed. -/
theorem check_news_wellformed_and_bad_feed_skipped :
    (∀ (env : Env) (cache : List FeedItem) (h : String),
      ((check_news env cache h).1.verdict = ("Potential Fake ❌") ∨
       (check_news env cache h).1.verdict = ("Verified Real ✅") ∨
       (check_news env cache h).1.verdict = ("Unverified ❓")) ∧
      (check_news env cache h).1.evidence ≠ [] ∧
      (check_news env cache h).1.explanation = verdictText env) ∧
    (∀ (pre post : List (String × Option (List FeedEntry))) (url : String)
        (now : String) (cache : List FeedItem),
      fetch_rss_once (pre ++ (url, none) :: post) now cache =
        fetch_rss_once (pre ++ post) now cache) := by
  constructor
  · intro env cache h
    exact ⟨deriveLabel_mem (verdictText env),
      check_news_evidence_ne_nil env cache h, rfl⟩
  · intro pre post url now cache
    unfold fetch_rss_once
    rw [List.foldl_append, List.foldl_append, List.foldl_cons]
    rfl

/-- C1 (witness): a failing feed placed among others is skipped. -/
theorem check_news_wellformed_and_bad_feed_skipped_witness :
    fetch_rss_once [(("u"), none)] ("t") [] = fetch_rss_once [] ("t") [] :=
  check_news_wellformed_and_bad_feed_skipped.2 [] [] ("u") ("t") []

/-! ## C7 -/

/-- C7: when a configured search API's call raises (transport failure or
malformed body), exactly one diagnostic evidence string describing the
error is appended in that API's position, and the rest of the collection
(the other API's segment) is still present unchanged — the failure aborts
nothing and no retry happens (each source has exactly one outcome per
request). -/
theorem search_api_failure_single_diagnostic (env : Env) (cache : List FeedItem)
    (h e : String) :
    (env.newsApiKey = true → env.newsApiResult = .error e →
      collectEvidence env cache h =
        rssSegment cache h ++ [("⚠ NewsAPI error: ") ++ e] ++ gnewsSegment env) ∧
    (env.gnewsApiKey = true → env.gnewsResult = .error e →
      collectEvidence env cache h =
        rssSegment cache h ++ newsSegment env ++ [("⚠ GNews API error: ") ++ e]) := by
  constructor
  · intro hk hr
    unfold collectEvidence newsSegment
    rw [hk, hr]
    simp
  · intro hk hr
    unfold collectEvidence gnewsSegment
    rw [hk, hr]
    simp

/-- An environment in which both search APIs are configured and both of
their calls raise. -/
def envBothApisFail : Env :=
  { envPlain with
    newsApiKey := true, newsApiResult := .error ("Expecting value: line 1 column 1"),
    gnewsApiKey := true, gnewsResult := .error ("timed out") }

/-- C7 (witness): with both APIs failing, the evidence is exactly the two
diagnostic strings, one per source, in order. -/
theorem search_api_failure_single_diagnostic_witness :
    collectEvidence envBothApisFail [] ("x") =
      rssSegment [] ("x") ++ [("⚠ NewsAPI error: ") ++ ("Expecting value: line 1 column 1")] ++
        gnewsSegment envBothApisFail :=
  (search_api_failure_single_diagnostic envBothApisFail [] ("x")
    ("Expecting value: line 1 column 1")).1 rfl rfl

/-! ## C3 -/

/-- The 0-100 Indel similarity exceeds 60 exactly when the distance is
less than two fifths of the total length. -/
lemma ratioQ_gt60 (d l : Nat) (hl : 0 < l) : 60 < ratioQ d l ↔ 5 * d < 2 * l := by
  have hl' : (0:ℚ) < (l:ℚ) := by exact_mod_cast hl
  unfold ratioQ
  rw [show (100:ℚ) * (1 - (d:ℚ)/(l:ℚ)) = 100 - (100*(d:ℚ))/(l:ℚ) by ring]
  rw [show ((60:ℚ) < 100 - (100*(d:ℚ))/(l:ℚ) ↔ (100*(d:ℚ))/(l:ℚ) < 40) by
    constructor <;> intro h <;> linarith]
  rw [div_lt_iff₀ hl']
  constructor
  · intro h
    have h2 : (5:ℚ) * d < 2 * l := by linarith
    exact_mod_cast h2
  · intro h
    have h2 : (5:ℚ) * d < 2 * l := by exact_mod_cast h
    linarith

/-- Evaluation of the token-set ratio of the two Scenario 1 headlines:
the token sets share `{3, economy}`, the joined differences are
`"grew last quarter"` and `"by grows in q2"`, and the three candidate
ratios reduce to the three `ratioQ` terms below. -/
lemma tsr_eval_scenario1 :
    token_set_ratio (normalize (some ("Economy grew 3% last quarter")))
      (normalize (some ("Economy grows by 3% in Q2"))) =
    max (ratioQ 19 51) (max (ratioQ 18 36) (ratioQ 15 33)) := rfl

/-- The Scenario 1 ratio strictly exceeds 60 (it equals 3200/51). -/
lemma tsr_scenario1_gt60 :
    (60 : ℚ) < token_set_ratio (normalize (some ("Economy grew 3% last quarter")))
      (normalize (some ("Economy grows by 3% in Q2"))) := by
  rw [tsr_eval_scenario1]
  have h : (60:ℚ) < ratioQ 19 51 := by
    rw [ratioQ_gt60 19 51 (by norm_num)]
    decide
  exact lt_max_iff.mpr (Or.inl h)

/-- The cached item of fuzzy-match Scenario 1. -/
def econItem : FeedItem :=
  { source := ("s"), headline := ("Economy grows by 3% in Q2"),
    link := ("https://news.example/econ"), timestamp := ("t") }

/-- C3: a cached item contributes a fuzzy-match evidence string iff its
normalized headline's token-set ratio against the normalized input is
strictly greater than 60, and the contribution is formatted
`"<headline> (<link>)"` from the original un-normalized fields; every
such match of the refreshed cache appears in the returned evidence; and
for the input `"Economy grew 3% last quarter"` against the cached
headline `"Economy grows by 3% in Q2"` the ratio exceeds 60. -/
theorem rss_fuzzy_evidence_spec :
    (∀ (cache : List FeedItem) (h s : String),
      s ∈ rssSegment cache h ↔
        ∃ item ∈ cache,
          60 < token_set_ratio (normalize (some h)) (normalize (some item.headline)) ∧
          s = item.headline ++ (" (") ++ item.link ++ (")")) ∧
    (∀ (env : Env) (cache : List FeedItem) (h : String) (item : FeedItem),
      item ∈ (fetch_rss_once env.feeds env.now cache).1 →
      60 < token_set_ratio (normalize (some h)) (normalize (some item.headline)) →
      (item.headline ++ (" (") ++ item.link ++ (")")) ∈
        (check_news env cache h).1.evidence) ∧
    60 < token_set_ratio (normalize (some ("Economy grew 3% last quarter")))
      (normalize (some econItem.headline)) := by
  refine ⟨?_, ?_, tsr_scenario1_gt60⟩
  · intro cache h s
    constructor
    · intro hs
      obtain ⟨item, hfilt, rfl⟩ := List.mem_map.mp hs
      obtain ⟨hmem, hdec⟩ := List.mem_filter.mp hfilt
      exact ⟨item, hmem, of_decide_eq_true hdec, rfl⟩
    · rintro ⟨item, hmem, hr, rfl⟩
      exact List.mem_map.mpr ⟨item, List.mem_filter.mpr ⟨hmem, decide_eq_true hr⟩, rfl⟩
  · intro env cache h item hitem hr
    have hmem : (item.headline ++ (" (") ++ item.link ++ (")")) ∈
        rssSegment (fetch_rss_once env.feeds env.now cache).1 h :=
      List.mem_map.mpr ⟨item, List.mem_filter.mpr ⟨hitem, decide_eq_true hr⟩, rfl⟩
    have hce : (item.headline ++ (" (") ++ item.link ++ (")")) ∈
        collectEvidence env (fetch_rss_once env.feeds env.now cache).1 h :=
      List.mem_append.mpr (Or.inl (List.mem_append.mpr (Or.inl hmem)))
    rw [check_news_evidence_eq, if_neg]
    · exact hce
    · intro hemp
      rw [List.isEmpty_iff] at hemp
      rw [hemp] at hce
      exact absurd hce (List.not_mem_nil _)

/-- C3 (witness): in a request over a cache holding the Scenario 1 item,
that item's formatted headline and link appear in the evidence. -/
theorem rss_fuzzy_evidence_spec_witness :
    (econItem.headline ++ (" (") ++ econItem.link ++ (")")) ∈
      (check_news envPlain [econItem] ("Economy grew 3% last quarter")).1.evidence :=
  rss_fuzzy_evidence_spec.2.1 envPlain [econItem] ("Economy grew 3% last quarter")
    econItem (by decide) tsr_scenario1_gt60

/-! ## C6 -/

/-- One `fetchStep` preserves uniqueness of the cached headline strings. -/
lemma fetchStep_headline_nodup (now : String) (acc : List FeedItem × List FeedItem)
    (url : String) (e : FeedEntry)
    (h : (acc.1.map FeedItem.headline).Nodup) :
    (((fetchStep now acc url e).1).map FeedItem.headline).Nodup := by
  unfold fetchStep
  by_cases hany :
      acc.1.any (fun i => i.headline == (mkFeedItem url e now).headline) = true
  · rw [if_pos hany]
    exact h
  · rw [if_neg hany]
    simp only [List.any_eq_true, beq_iff_eq, not_exists, not_and] at hany
    rw [List.map_append]
    refine List.Nodup.append h (List.nodup_singleton _) ?_
    intro a ha hb
    obtain ⟨i, hi, rfl⟩ := List.mem_map.mp ha
    rw [List.map_cons, List.map_nil, List.mem_singleton] at hb
    exact hany i hi hb

lemma entriesFold_headline_nodup (now url : String) :
    ∀ (entries : List FeedEntry) (acc : List FeedItem × List FeedItem),
    (acc.1.map FeedItem.headline).Nodup →
    (((entries.foldl (fun a e => fetchStep now a url e) acc).1).map
      FeedItem.headline).Nodup := by
  intro entries
  induction entries with
  | nil => intro acc h; exact h
  | cons e es ih =>
    intro acc h
    rw [List.foldl_cons]
    exact ih _ (fetchStep_headline_nodup now acc url e h)

lemma feedsFold_headline_nodup (now : String) :
    ∀ (feeds : List (String × Option (List FeedEntry)))
      (acc : List FeedItem × List FeedItem),
    (acc.1.map FeedItem.headline).Nodup →
    (((feeds.foldl (fetchFeed now) acc).1).map FeedItem.headline).Nodup := by
  intro feeds
  induction feeds with
  | nil => intro acc h; exact h
  | cons f fs ih =>
    obtain ⟨u, r⟩ := f
    intro acc h
    rw [List.foldl_cons]
    apply ih
    cases r with
    | none => exact h
    | some entries => exact entriesFold_headline_nodup now u entries acc h

/-- C6: a refresh appends a feed entry only when no already-cached item
has the identical headline string (case-sensitive, no normalization), so
headline uniqueness of the cache is preserved, and feeding two entries
with identical headline text (and possibly different links) through one
refresh grows the cache by at most one item. -/
theorem fetch_rss_once_dedup_exact :
    (∀ (feeds : List (String × Option (List FeedEntry))) (now : String)
        (cache : List FeedItem),
      (cache.map FeedItem.headline).Nodup →
      (((fetch_rss_once feeds now cache).1).map FeedItem.headline).Nodup) ∧
    (∀ (url : String) (e1 e2 : FeedEntry) (now : String) (cache : List FeedItem),
      e1.title = e2.title →
      ((fetch_rss_once [(url, some [e1, e2])] now cache).1).length ≤
        cache.length + 1) := by
  constructor
  · intro feeds now cache h
    exact feedsFold_headline_nodup now feeds (cache, []) h
  · intro url e1 e2 now cache h
    show ((fetchStep now (fetchStep now (cache, []) url e1) url e2).1).length ≤
      cache.length + 1
    by_cases hany :
        cache.any (fun i => i.headline == (mkFeedItem url e1 now).headline) = true
    · have h1 : fetchStep now (cache, []) url e1 = (cache, []) := by
        unfold fetchStep
        rw [if_pos hany]
      rw [h1]
      have hany1 : cache.any (fun i => i.headline == e1.title) = true := hany
      have hany2 : cache.any (fun i => i.headline == (mkFeedItem url e2 now).headline)
          = true := by
        show cache.any (fun i => i.headline == e2.title) = true
        rw [← h]
        exact hany1
      have h2 : fetchStep now (cache, []) url e2 = (cache, []) := by
        unfold fetchStep
        rw [if_pos hany2]
      rw [h2]
      exact Nat.le_succ _
    · have h1 : fetchStep now (cache, []) url e1 =
          (cache ++ [mkFeedItem url e1 now], [mkFeedItem url e1 now]) := by
        unfold fetchStep
        rw [if_neg hany]
        rfl
      rw [h1]
      have hany2 : (cache ++ [mkFeedItem url e1 now]).any
          (fun i => i.headline == (mkFeedItem url e2 now).headline) = true := by
        simp [List.any_append, mkFeedItem, h]
      have h2 : fetchStep now
          (cache ++ [mkFeedItem url e1 now], [mkFeedItem url e1 now]) url e2 =
          (cache ++ [mkFeedItem url e1 now], [mkFeedItem url e1 now]) := by
        unfold fetchStep
        rw [if_pos hany2]
      rw [h2]
      simp

def feedE1 : FeedEntry :=
  { title := ("Storm hits coast"), link := ("l1"), published := none }

def feedE2 : FeedEntry :=
  { title := ("Storm hits coast"), link := ("l2"), published := none }

/-- C6 (witness): two concrete entries with the same headline and different
links grow an empty cache by at most one, and headline uniqueness holds
afterwards. -/
theorem fetch_rss_once_dedup_exact_witness :
    (((fetch_rss_once [(("u"), some [feedE1, feedE2])] ("t") []).1).map
      FeedItem.headline).Nodup ∧
    ((fetch_rss_once [(("u"), some [feedE1, feedE2])] ("t") []).1).length ≤
      ([] : List FeedItem).length + 1 :=
  ⟨fetch_rss_once_dedup_exact.1 [(("u"), some [feedE1, feedE2])] ("t") []
      List.nodup_nil,
   fetch_rss_once_dedup_exact.2 ("u") feedE1 feedE2 ("t") [] rfl⟩

/-! ## C10 -/

/-- One `fetchStep` only ever appends, and the appended item (if any) is
built from the entry. -/
lemma fetchStep_sub (now : String) (acc : List FeedItem × List FeedItem)
    (url : String) (e : FeedEntry) :
    ∃ extra, (fetchStep now acc url e).1 = acc.1 ++ extra ∧
      ∀ it ∈ extra, it = mkFeedItem url e now := by
  unfold fetchStep
  by_cases hany :
      acc.1.any (fun i => i.headline == (mkFeedItem url e now).headline) = true
  · rw [if_pos hany]
    exact ⟨[], (List.append_nil _).symm, by simp⟩
  · rw [if_neg hany]
    exact ⟨[mkFeedItem url e now], rfl, by simp⟩

lemma entriesFold_sub (now url : String) :
    ∀ (entries : List FeedEntry) (acc : List FeedItem × List FeedItem),
    ∃ extra, ((entries.foldl (fun a e => fetchStep now a url e) acc).1 =
        acc.1 ++ extra) ∧
      ∀ it ∈ extra, ∃ e ∈ entries, it = mkFeedItem url e now := by
  intro entries
  induction entries with
  | nil =>
    intro acc
    exact ⟨[], (List.append_nil _).symm, by simp⟩
  | cons e es ih =>
    intro acc
    obtain ⟨x0, hx0, hmem0⟩ := fetchStep_sub now acc url e
    obtain ⟨x1, hx1, hmem1⟩ := ih (fetchStep now acc url e)
    refine ⟨x0 ++ x1, ?_, ?_⟩
    · rw [List.foldl_cons, hx1, hx0, List.append_assoc]
    · intro it hit
      rcases List.mem_append.mp hit with h0 | h1
      · exact ⟨e, List.mem_cons_self e es, hmem0 it h0⟩
      · obtain ⟨e', he', heq⟩ := hmem1 it h1
        exact ⟨e', List.mem_cons_of_mem e he', heq⟩

lemma feedsFold_sub (now : String) :
    ∀ (feeds : List (String × Option (List FeedEntry)))
      (acc : List FeedItem × List FeedItem),
    ∃ extra, ((feeds.foldl (fetchFeed now) acc).1 = acc.1 ++ extra) ∧
      ∀ it ∈ extra, ∃ u es e, (u, some es) ∈ feeds ∧ e ∈ es ∧
        it = mkFeedItem u e now := by
  intro feeds
  induction feeds with
  | nil =>
    intro acc
    exact ⟨[], (List.append_nil _).symm, by simp⟩
  | cons f fs ih =>
    obtain ⟨u, r⟩ := f
    intro acc
    cases r with
    | none =>
      obtain ⟨x1, hx1, hmem1⟩ := ih acc
      refine ⟨x1, ?_, ?_⟩
      · rw [List.foldl_cons]
        exact hx1
      · intro it hit
        obtain ⟨u', es', e', hfeed, he', heq⟩ := hmem1 it hit
        exact ⟨u', es', e', List.mem_cons_of_mem _ hfeed, he', heq⟩
    | some entries =>
      obtain ⟨x0, hx0, hmem0⟩ := entriesFold_sub now u entries acc
      obtain ⟨x1, hx1, hmem1⟩ :=
        ih (entries.foldl (fun a e => fetchStep now a u e) acc)
      refine ⟨x0 ++ x1, ?_, ?_⟩
      · rw [List.foldl_cons]
        show (fs.foldl (fetchFeed now)
          (entries.foldl (fun a e => fetchStep now a u e) acc)).1 = _
        rw [hx1, hx0, List.append_assoc]
      · intro it hit
        rcases List.mem_append.mp hit with h0 | h1
        · obtain ⟨e', he', heq⟩ := hmem0 it h0
          exact ⟨u, entries, e', List.mem_cons_self _ _, he', heq⟩
        · obtain ⟨u', es', e', hfeed, he', heq⟩ := hmem1 it h1
          exact ⟨u', es', e', List.mem_cons_of_mem _ hfeed, he', heq⟩

/-- C10: both `check_news` and `stream_trusted_news` modify the feed cache
only by appending new items built from configured feed entries — the
previously cached items stay in place, unchanged and in order, as a
prefix — and the cache left by `check_news` does not depend on the
queried headline, so the query string itself is never inserted. -/
theorem feed_cache_append_only (env : Env) (cache : List FeedItem)
    (h h' : String) :
    (∃ new, (check_news env cache h).2 = cache ++ new ∧
      ∀ it ∈ new, ∃ u es e, (u, some es) ∈ env.feeds ∧ e ∈ es ∧
        it = mkFeedItem u e env.now) ∧
    (check_news env cache h).2 = (check_news env cache h').2 ∧
    (∃ new, (stream_trusted_news env cache).2 = cache ++ new ∧
      ∀ it ∈ new, ∃ u es e, (u, some es) ∈ env.feeds ∧ e ∈ es ∧
        it = mkFeedItem u e env.now) := by
  have hmain := feedsFold_sub env.now env.feeds (cache, [])
  exact ⟨hmain, rfl, hmain⟩

/-- C10 (witness): at a concrete environment the cache after `check_news`
does not depend on the queried headline. -/
theorem feed_cache_append_only_witness :
    (check_news envPlain [] ("a")).2 = (check_news envPlain [] ("b")).2 :=
  (feed_cache_append_only envPlain [] ("a") ("b")).2.1

end TruthScope
